import Mathlib

/-!
Verification of the SDN packet-forwarding controllers (POX components
`part2controller.py` and `part3controller.py`) against their
natural-language specification.

The embedding translates each controller verbatim:

* `OfpMatch`, `OfpAction`, `OfpFlowMod` embed the subset of POX's
  `ofp_match` / `ofp_action_output` / `ofp_flow_mod` objects the
  controllers touch.  Fields the code never sets stay at POX's
  defaults: every match field is a wildcard (`none`) and the flow-mod
  priority is the protocol default `OFP_DEFAULT_PRIORITY = 0x8000`,
  exactly as `libopenflow_01` initialises them.
* `firewallMessages` is the sequence of flow mods `Firewall.__init__`
  sends (part2controller.py lines 37-40).
* `s1_setup` .. `dcs31_setup` and `part3Connect` embed
  `Part3Controller`'s per-dpid dispatch (part3controller.py lines 60-72)
  and the individual install helpers.
* `stepConnectionUp` / `processEvents` model the controller process
  handling a stream of ConnectionUp events; the `exited` flag embeds the
  `exit(1)` on an unknown dpid.
* `handlePacketIn` embeds `_handle_PacketIn`, which only logs.
-/

/-- Ether type for IPv4, constant `IPV4 = 0x0800` in both controllers. -/
def IPV4 : Nat := 0x0800

/-- IP protocol number for ICMP, constant `ICMP_PROTO = 1`. -/
def ICMP_PROTO : Nat := 1

/-- Ether type for ARP, constant `ARP_ETHERTYPE = 0x0806` (part2controller.py). -/
def ARP_ETHERTYPE : Nat := 0x0806

/-- OpenFlow 1.0 pseudo-port `OFPP_FLOOD`. -/
def OFPP_FLOOD : Nat := 0xFFFB

/-- OpenFlow 1.0 pseudo-port `OFPP_IN_PORT`. -/
def OFPP_IN_PORT : Nat := 0xFFF8

/-- POX's `OFP_DEFAULT_PRIORITY = 0x8000`, the priority `ofp_flow_mod`
carries when the controller never assigns one (neither controller does). -/
def OFP_DEFAULT_PRIORITY : Nat := 0x8000

/-- The subset of POX's `ofp_match` the controllers populate.  A `none`
field is a wildcard, exactly as a fresh `of.ofp_match()` leaves every
field unset. -/
structure OfpMatch where
  dl_type : Option Nat := none
  nw_proto : Option Nat := none
  nw_src : Option String := none
  nw_dst : Option String := none
deriving DecidableEq

/-- The only action kind either controller builds: `of.ofp_action_output(port=...)`. -/
inductive OfpAction where
  | output (port : Nat)
deriving DecidableEq

/-- The subset of POX's `ofp_flow_mod` the controllers populate.  The
`priority` default embeds `libopenflow_01`'s initialiser; no controller
code ever overwrites it.  The field `match_` embeds `.match`. -/
structure OfpFlowMod where
  match_ : OfpMatch := {}
  actions : List OfpAction := []
  priority : Nat := OFP_DEFAULT_PRIORITY
deriving DecidableEq

/-- A packet descriptor: the header fields the installed matches can
constrain.  IP-layer fields are carried for every descriptor; a match
constraining them against a packet of another ether type is exactly the
malformed-predicate situation of the spec. -/
structure Packet where
  dl_type : Nat
  nw_proto : Nat
  nw_src : String
  nw_dst : String
deriving DecidableEq

/-- Wildcard field matching: an unset (`none`) match field matches
anything, a set field matches by equality. -/
def fieldMatches {α : Type} [DecidableEq α] : Option α → α → Bool
  | none, _ => true
  | some v, x => decide (v = x)

/-- OpenFlow match evaluation over the embedded fields. -/
def matchesPacket (m : OfpMatch) (p : Packet) : Bool :=
  fieldMatches m.dl_type p.dl_type && fieldMatches m.nw_proto p.nw_proto &&
    fieldMatches m.nw_src p.nw_src && fieldMatches m.nw_dst p.nw_dst

/-- Modelled from the spec (section 3 and the glossary): specificity of a
predicate counts the constrained header fields; it never appears in the
source, which assigns no priorities at all. -/
def specificity (m : OfpMatch) : Nat :=
  (if m.dl_type.isSome then 1 else 0) + (if m.nw_proto.isSome then 1 else 0) +
    (if m.nw_src.isSome then 1 else 0) + (if m.nw_dst.isSome then 1 else 0)

/-- Number of installed entries a packet matches. -/
def matchCount (entries : List OfpFlowMod) (p : Packet) : Nat :=
  (entries.filter fun fm => matchesPacket fm.match_ p).length

/-! ### part2controller.py: the `Firewall` class -/

/-- `Firewall._install_icmp_rule`: match `dl_type = IPV4`,
`nw_proto = ICMP_PROTO`, action flood. -/
def icmpFlowMod : OfpFlowMod :=
  { match_ := { dl_type := some IPV4, nw_proto := some ICMP_PROTO }
    actions := [.output OFPP_FLOOD] }

/-- `Firewall._install_arp_rule`: match `dl_type = ARP_ETHERTYPE`, action flood. -/
def arpFlowMod : OfpFlowMod :=
  { match_ := { dl_type := some ARP_ETHERTYPE }
    actions := [.output OFPP_FLOOD] }

/-- `Firewall._install_drop_rule`: match `dl_type = IPV4`, no actions (drop). -/
def dropFlowMod : OfpFlowMod :=
  { match_ := { dl_type := some IPV4 } }

/-- The flow mods `Firewall.__init__` sends, in send order
(`_install_icmp_rule`, `_install_arp_rule`, `_install_drop_rule`). -/
def firewallMessages : List OfpFlowMod :=
  [icmpFlowMod, arpFlowMod, dropFlowMod]

/-! ### part3controller.py: the `Part3Controller` class -/

/-- The static `IPS` table of part3controller.py: host name to
(IP address, MAC address). -/
def IPS : List (String × String × String) :=
  [("h10", "10.0.1.10", "00:00:00:00:00:01"),
   ("h20", "10.0.2.20", "00:00:00:00:00:02"),
   ("h30", "10.0.3.30", "00:00:00:00:00:03"),
   ("serv1", "10.0.4.10", "00:00:00:00:00:04"),
   ("hnotrust", "172.16.10.100", "00:00:00:00:00:05")]

/-- Embeds the lookup `IPS[name][0]` (the IP-address component). -/
def ipAddrOf (name : String) : String :=
  ((IPS.lookup name).getD ("", "")).1

/-- `Part3Controller._install_accept_hosts_rule(dst_ip)`: match
`dl_type = IPV4`, `nw_dst = dst_ip`, action flood. -/
def installAcceptHostsRule (dst_ip : String) : OfpFlowMod :=
  { match_ := { dl_type := some IPV4, nw_dst := some dst_ip }
    actions := [.output OFPP_FLOOD] }

/-- `Part3Controller._install_drop_hnotrust_icmp_rule(dst_ip)`: match
`dl_type = IPV4`, `nw_src = hnotrust`, `nw_proto = ICMP_PROTO`,
`nw_dst = dst_ip`, no actions (drop). -/
def installDropHnotrustIcmpRule (dst_ip : String) : OfpFlowMod :=
  { match_ := { dl_type := some IPV4
                nw_proto := some ICMP_PROTO
                nw_src := some (ipAddrOf "hnotrust")
                nw_dst := some dst_ip } }

/-- `Part3Controller._install_dcs31_drop_rules`: match `nw_src = hnotrust`,
`nw_dst = serv1` and no `dl_type` constraint at all, no actions (drop). -/
def dcs31DropRule : OfpFlowMod :=
  { match_ := { nw_src := some (ipAddrOf "hnotrust")
                nw_dst := some (ipAddrOf "serv1") } }

/-- `Part3Controller.cores21_setup`: a flow mod with a fully wildcarded
match and action `OFPP_IN_PORT`. -/
def cores21FlowMod : OfpFlowMod :=
  { actions := [.output OFPP_IN_PORT] }

/-- Flow mods sent by `Part3Controller.s1_setup`, in send order. -/
def s1_setup : List OfpFlowMod :=
  [installAcceptHostsRule (ipAddrOf "h10"),
   installDropHnotrustIcmpRule (ipAddrOf "h10")]

/-- Flow mods sent by `Part3Controller.s2_setup`, in send order. -/
def s2_setup : List OfpFlowMod :=
  [installAcceptHostsRule (ipAddrOf "h20"),
   installDropHnotrustIcmpRule (ipAddrOf "h20")]

/-- Flow mods sent by `Part3Controller.s3_setup`, in send order. -/
def s3_setup : List OfpFlowMod :=
  [installAcceptHostsRule (ipAddrOf "h30"),
   installDropHnotrustIcmpRule (ipAddrOf "h30")]

/-- Flow mods sent by `Part3Controller.cores21_setup`. -/
def cores21_setup : List OfpFlowMod :=
  [cores21FlowMod]

/-- Flow mods sent by `Part3Controller.dcs31_setup`, in send order. -/
def dcs31_setup : List OfpFlowMod :=
  [installAcceptHostsRule (ipAddrOf "serv1"), dcs31DropRule]

/-- The failure of `Part3Controller.__init__`'s final branch:
`print("UNKNOWN SWITCH"); exit(1)`. -/
inductive ConnectionError where
  | UnknownSwitch
deriving DecidableEq

/-- `Part3Controller.__init__`'s dpid dispatch: the flow mods pushed to a
connecting switch, or the unknown-switch failure. -/
def part3Connect (dpid : Nat) : Except ConnectionError (List OfpFlowMod) :=
  if dpid = 1 then .ok s1_setup
  else if dpid = 2 then .ok s2_setup
  else if dpid = 3 then .ok s3_setup
  else if dpid = 21 then .ok cores21_setup
  else if dpid = 31 then .ok dcs31_setup
  else .error .UnknownSwitch

/-- Controller-process state across ConnectionUp events: which flow mods
each session (keyed by dpid) has received, and whether the process has
called `exit(1)`. -/
structure ControllerState where
  exited : Bool
  installed : List (Nat × List OfpFlowMod)
deriving DecidableEq

/-- The controller process before any event. -/
def initState : ControllerState := ⟨false, []⟩

/-- Handling of one ConnectionUp event: a known dpid gets its setup's
flow mods pushed; an unknown dpid makes the process exit, after which no
further event is processed. -/
def stepConnectionUp (st : ControllerState) (dpid : Nat) : ControllerState :=
  if st.exited then st
  else
    match part3Connect dpid with
    | .ok msgs => { st with installed := st.installed ++ [(dpid, msgs)] }
    | .error _ => { st with exited := true }

/-- Handling of a stream of ConnectionUp events. -/
def processEvents (st : ControllerState) (dpids : List Nat) : ControllerState :=
  dpids.foldl stepConnectionUp st

/-- Observable outcome of `_handle_PacketIn` (identical in both
controllers): a warning for an incomplete packet, a print for a parsed
one, and the flow mods it sends, which are none on every path. -/
structure PacketInResult where
  warnedIncomplete : Bool
  printedUnhandled : Bool
  sentMessages : List OfpFlowMod
deriving DecidableEq

/-- `_handle_PacketIn`: log and return; no message is ever sent. -/
def handlePacketIn (packetParsed : Bool) : PacketInResult :=
  if !packetParsed then ⟨true, false, []⟩ else ⟨false, true, []⟩

/-- The installed table after a sequence of PacketIn events, each
contributing whatever flow mods its handler sent. -/
def tableAfterPacketIns (tbl : List OfpFlowMod) (pkts : List Bool) : List OfpFlowMod :=
  pkts.foldl (fun t p => t ++ (handlePacketIn p).sentMessages) tbl

/-! ### Concrete packets used in counterexamples and witnesses -/

/-- An ICMP packet between two trusted hosts. -/
def icmpPacket : Packet := ⟨0x0800, 1, "10.0.1.10", "10.0.2.20"⟩

/-- A packet of an ether type neither IPv4 nor ARP (IPv6). -/
def ipv6Packet : Packet := ⟨0x86DD, 6, "fc00::1", "fc00::2"⟩

/-- An ICMP packet from the untrusted host to h10. -/
def hnotrustIcmpToH10 : Packet := ⟨0x0800, 1, "172.16.10.100", "10.0.1.10"⟩

/-- A TCP packet from the untrusted host to serv1. -/
def hnotrustTcpToServ1 : Packet := ⟨0x0800, 6, "172.16.10.100", "10.0.4.10"⟩

example : ipAddrOf "h10" = "10.0.1.10" := by decide
example : matchCount firewallMessages icmpPacket = 2 := by decide
example : matchCount firewallMessages ipv6Packet = 0 := by decide
example : matchCount s1_setup hnotrustIcmpToH10 = 2 := by decide

/-! ### Helper lemmas -/

/-- Once the process has exited, a ConnectionUp event changes nothing. -/
theorem stepConnectionUp_of_exited (st : ControllerState) (d : Nat)
    (h : st.exited = true) : stepConnectionUp st d = st := by
  simp [stepConnectionUp, h]

/-- Once the process has exited, no further event stream changes anything. -/
theorem processEvents_of_exited (st : ControllerState) (dpids : List Nat)
    (h : st.exited = true) : processEvents st dpids = st := by
  induction dpids with
  | nil => rfl
  | cons d ds ih =>
    show List.foldl stepConnectionUp (stepConnectionUp st d) ds = st
    rw [stepConnectionUp_of_exited st d h]
    exact ih

/-! ### Claims -/

/-- C1, counterexample: the claim asserts exactly one matching entry for
every packet descriptor.  On the part2 Firewall an ICMP packet matches
both the ICMP-accept entry and the IPv4 drop entry (two entries), and an
IPv6 packet matches no entry at all, so no catch-all matching any packet
was synthesized. -/
theorem c1_counterexample :
    ¬ matchCount firewallMessages icmpPacket = 1 ∧
    matchCount firewallMessages icmpPacket = 2 ∧
    matchCount firewallMessages ipv6Packet = 0 := by
  decide

/-- C1, amended: for the part2 Firewall role, every IPv4 packet
descriptor matches at least one installed entry (the IPv4 drop entry is
a catch-all for IPv4 only); exact uniqueness fails and no catch-all
covering the remaining ether types is synthesized. -/
theorem c1_amended_ipv4_at_least_one_match (p : Packet) (h : p.dl_type = IPV4) :
    0 < matchCount firewallMessages p := by
  have hd : matchesPacket dropFlowMod.match_ p = true := by
    simp [matchesPacket, fieldMatches, dropFlowMod, h]
  have hm : dropFlowMod ∈ firewallMessages.filter fun fm => matchesPacket fm.match_ p :=
    List.mem_filter.mpr ⟨by simp [firewallMessages], hd⟩
  exact List.length_pos.mpr (List.ne_nil_of_mem hm)

/-- C1, witness for the amended theorem at a concrete IPv4 packet. -/
theorem c1_amended_witness :
    icmpPacket.dl_type = IPV4 ∧ 0 < matchCount firewallMessages icmpPacket :=
  ⟨by decide, c1_amended_ipv4_at_least_one_match icmpPacket (by decide)⟩

/-- C2, counterexample: on s1 the broader accept entry (specificity 2) is
pushed before the strictly narrower overlapping drop entry
(specificity 4), and both carry the same priority, so the pushed
sequence is not sorted by strictly descending priority and a broader
entry does precede a narrower overlapping one. -/
theorem c2_counterexample :
    s1_setup = [installAcceptHostsRule (ipAddrOf "h10"),
                installDropHnotrustIcmpRule (ipAddrOf "h10")] ∧
    (installAcceptHostsRule (ipAddrOf "h10")).priority =
      (installDropHnotrustIcmpRule (ipAddrOf "h10")).priority ∧
    specificity (installAcceptHostsRule (ipAddrOf "h10")).match_ <
      specificity (installDropHnotrustIcmpRule (ipAddrOf "h10")).match_ ∧
    matchesPacket (installAcceptHostsRule (ipAddrOf "h10")).match_ hnotrustIcmpToH10 = true ∧
    matchesPacket (installDropHnotrustIcmpRule (ipAddrOf "h10")).match_ hnotrustIcmpToH10 = true := by
  decide

/-- C2, amended: every pushed sequence is sorted by non-strictly
descending priority only, because all entries carry the same default
priority; the installer pushes the authored source order, which on s1
puts the broader accept entry before the narrower overlapping drop
entry, and no sequence of length two or more is strictly descending. -/
theorem c2_amended_push_order :
    List.Pairwise (fun a b : OfpFlowMod => b.priority ≤ a.priority) firewallMessages ∧
    List.Pairwise (fun a b : OfpFlowMod => b.priority ≤ a.priority) s1_setup ∧
    List.Pairwise (fun a b : OfpFlowMod => b.priority ≤ a.priority) s2_setup ∧
    List.Pairwise (fun a b : OfpFlowMod => b.priority ≤ a.priority) s3_setup ∧
    List.Pairwise (fun a b : OfpFlowMod => b.priority ≤ a.priority) cores21_setup ∧
    List.Pairwise (fun a b : OfpFlowMod => b.priority ≤ a.priority) dcs31_setup ∧
    ¬ List.Pairwise (fun a b : OfpFlowMod => b.priority < a.priority) s1_setup ∧
    s1_setup = [installAcceptHostsRule (ipAddrOf "h10"),
                installDropHnotrustIcmpRule (ipAddrOf "h10")] := by
  decide

/-- C3, counterexample: the Deny entry of s1 is not at a strictly higher
priority than the broader Permit entry installed on the same switch;
both sit at the same default priority, although the Deny entry is
strictly more specific and the two overlap. -/
theorem c3_counterexample :
    installDropHnotrustIcmpRule (ipAddrOf "h10") ∈ s1_setup ∧
    installAcceptHostsRule (ipAddrOf "h10") ∈ s1_setup ∧
    specificity (installAcceptHostsRule (ipAddrOf "h10")).match_ <
      specificity (installDropHnotrustIcmpRule (ipAddrOf "h10")).match_ ∧
    matchesPacket (installAcceptHostsRule (ipAddrOf "h10")).match_ hnotrustIcmpToH10 = true ∧
    ¬ (installAcceptHostsRule (ipAddrOf "h10")).priority <
        (installDropHnotrustIcmpRule (ipAddrOf "h10")).priority := by
  decide

/-- C3, amended: compiling the s1 role yields a Deny entry (no actions)
whose match covers every packet with src 172.16.10.100, protocol ICMP
and dst 10.0.1.10, but that entry sits at the same default priority as
the broader Permit entry on the same switch, not at a strictly higher
one. -/
theorem c3_amended_deny_entry (p : Packet) (h1 : p.dl_type = IPV4)
    (h2 : p.nw_proto = ICMP_PROTO) (h3 : p.nw_src = "172.16.10.100")
    (h4 : p.nw_dst = "10.0.1.10") :
    installDropHnotrustIcmpRule (ipAddrOf "h10") ∈ s1_setup ∧
    (installDropHnotrustIcmpRule (ipAddrOf "h10")).actions = [] ∧
    matchesPacket (installDropHnotrustIcmpRule (ipAddrOf "h10")).match_ p = true ∧
    (installDropHnotrustIcmpRule (ipAddrOf "h10")).priority =
      (installAcceptHostsRule (ipAddrOf "h10")).priority := by
  have hhn : ipAddrOf "hnotrust" = "172.16.10.100" := by decide
  have hh10 : ipAddrOf "h10" = "10.0.1.10" := by decide
  refine ⟨by decide, by decide, ?_, by decide⟩
  simp [installDropHnotrustIcmpRule, matchesPacket, fieldMatches, hhn, hh10, h1, h2, h3, h4]

/-- C3, witness for the amended theorem at the concrete untrusted-host
ICMP packet. -/
theorem c3_amended_witness :
    (hnotrustIcmpToH10.dl_type = IPV4 ∧ hnotrustIcmpToH10.nw_proto = ICMP_PROTO ∧
     hnotrustIcmpToH10.nw_src = "172.16.10.100" ∧ hnotrustIcmpToH10.nw_dst = "10.0.1.10") ∧
    (installDropHnotrustIcmpRule (ipAddrOf "h10") ∈ s1_setup ∧
     (installDropHnotrustIcmpRule (ipAddrOf "h10")).actions = [] ∧
     matchesPacket (installDropHnotrustIcmpRule (ipAddrOf "h10")).match_ hnotrustIcmpToH10 = true ∧
     (installDropHnotrustIcmpRule (ipAddrOf "h10")).priority =
       (installAcceptHostsRule (ipAddrOf "h10")).priority) :=
  ⟨⟨by decide, by decide, by decide, by decide⟩,
   c3_amended_deny_entry hnotrustIcmpToH10 (by decide) (by decide) (by decide) (by decide)⟩

/-- C4, counterexample: the authored dcs31 policy contains two entries of
identical specificity whose predicates overlap (a TCP packet from the
untrusted host to serv1 matches both), yet connection handling for
dpid 31 succeeds and installs both entries; no AmbiguousPolicy failure
exists. -/
theorem c4_counterexample :
    specificity (installAcceptHostsRule (ipAddrOf "serv1")).match_ =
      specificity dcs31DropRule.match_ ∧
    matchesPacket (installAcceptHostsRule (ipAddrOf "serv1")).match_ hnotrustTcpToServ1 = true ∧
    matchesPacket dcs31DropRule.match_ hnotrustTcpToServ1 = true ∧
    part3Connect 31 = Except.ok dcs31_setup ∧
    dcs31_setup ≠ [] := by
  refine ⟨by decide, by decide, by decide, rfl, by decide⟩

/-- C4, amended: compilation never fails on overlapping rules of
identical specificity; the dcs31 role installs two such entries
successfully (both match the same concrete packet) and exactly two of
its entries match that packet. -/
theorem c4_amended_no_ambiguity_failure :
    part3Connect 31 = Except.ok dcs31_setup ∧
    dcs31DropRule ∈ dcs31_setup ∧
    installAcceptHostsRule (ipAddrOf "serv1") ∈ dcs31_setup ∧
    specificity dcs31DropRule.match_ =
      specificity (installAcceptHostsRule (ipAddrOf "serv1")).match_ ∧
    matchCount dcs31_setup hnotrustTcpToServ1 = 2 := by
  refine ⟨rfl, by decide, by decide, by decide, by decide⟩

/-- C5: every dpid outside the role table (1, 2, 3, 21, 31) makes
connection handling fail with UnknownSwitch, and the handling step
pushes no flow entry to any session: the installed map is unchanged, so
the unknown switch is never given a permissive (or any) rule set. -/
theorem c5_unknown_switch_fail_closed (st : ControllerState) (dpid : Nat)
    (h : dpid ≠ 1 ∧ dpid ≠ 2 ∧ dpid ≠ 3 ∧ dpid ≠ 21 ∧ dpid ≠ 31) :
    part3Connect dpid = Except.error ConnectionError.UnknownSwitch ∧
    (stepConnectionUp st dpid).installed = st.installed := by
  obtain ⟨h1, h2, h3, h4, h5⟩ := h
  have hp : part3Connect dpid = Except.error ConnectionError.UnknownSwitch := by
    simp [part3Connect, h1, h2, h3, h4, h5]
  refine ⟨hp, ?_⟩
  by_cases he : st.exited = true
  · simp [stepConnectionUp, he]
  · simp [stepConnectionUp, he, hp]

/-- C5, witness at the concrete unknown dpid 99. -/
theorem c5_witness :
    (99 ≠ 1 ∧ 99 ≠ 2 ∧ 99 ≠ 3 ∧ 99 ≠ 21 ∧ (99 : Nat) ≠ 31) ∧
    (part3Connect 99 = Except.error ConnectionError.UnknownSwitch ∧
     (stepConnectionUp initState 99).installed = initState.installed) :=
  ⟨by decide, c5_unknown_switch_fail_closed initState 99 (by decide)⟩

/-- C6, counterexample: an unknown-switch error on one connection does
terminate processing for other sessions: after the event stream
[99, 1] the session of dpid 1 has received nothing, while after [1]
alone it receives the full s1 rule set. -/
theorem c6_counterexample :
    (processEvents initState [99, 1]).installed.lookup 1 = none ∧
    (processEvents initState [1]).installed.lookup 1 = some s1_setup := by
  refine ⟨rfl, rfl⟩

/-- C6, amended: an unknown-switch error never alters entries already
installed on other sessions, but it terminates the whole controller
process (the exited flag is set), so every subsequent connect event for
any other session goes unprocessed: errors are not isolated to the
failing connection. -/
theorem c6_amended_exit_halts_process (st : ControllerState) (dpid : Nat)
    (dpids : List Nat) (he : st.exited = false)
    (h : part3Connect dpid = Except.error ConnectionError.UnknownSwitch) :
    (stepConnectionUp st dpid).installed = st.installed ∧
    (stepConnectionUp st dpid).exited = true ∧
    processEvents (stepConnectionUp st dpid) dpids = stepConnectionUp st dpid := by
  have hs : stepConnectionUp st dpid = { st with exited := true } := by
    simp [stepConnectionUp, he, h]
  refine ⟨by rw [hs], by rw [hs], ?_⟩
  exact processEvents_of_exited _ dpids (by rw [hs])

/-- C6, witness for the amended theorem: dpid 99, follow-up events
[1, 2]. -/
theorem c6_amended_witness :
    (initState.exited = false ∧
     part3Connect 99 = Except.error ConnectionError.UnknownSwitch) ∧
    ((stepConnectionUp initState 99).installed = initState.installed ∧
     (stepConnectionUp initState 99).exited = true ∧
     processEvents (stepConnectionUp initState 99) [1, 2] = stepConnectionUp initState 99) :=
  ⟨⟨rfl, rfl⟩, c6_amended_exit_halts_process initState 99 [1, 2] rfl rfl⟩

/-- C7, counterexample: the dcs31 drop rule constrains the IP-layer
source and destination addresses while its ether type is fully
wildcarded (it does not select the IP layer), yet no MalformedPredicate
failure occurs: connection handling for dpid 31 succeeds and the entry
is installed. -/
theorem c7_counterexample :
    dcs31DropRule.match_.nw_src.isSome = true ∧
    dcs31DropRule.match_.nw_dst.isSome = true ∧
    dcs31DropRule.match_.dl_type = none ∧
    dcs31DropRule ∈ dcs31_setup ∧
    part3Connect 31 = Except.ok dcs31_setup := by
  refine ⟨by decide, by decide, by decide, by decide, rfl⟩

/-- C7, amended: the controller performs no configuration-time predicate
validation: a predicate constraining IP-layer fields without an IPv4
ether type (the dcs31 drop rule) is pushed to the dpid 31 session
without any error. -/
theorem c7_amended_malformed_installed :
    (processEvents initState [31]).installed.lookup 31 = some dcs31_setup ∧
    dcs31DropRule ∈ dcs31_setup ∧
    dcs31DropRule.match_.dl_type = none ∧
    dcs31DropRule.match_.nw_src = some "172.16.10.100" := by
  refine ⟨rfl, by decide, by decide, by decide⟩

/-- C8: the part2 Firewall sends exactly 3 entries in the order
[ICMP-Permit, ARP-Permit, Default-Deny]: the first matches IPv4/ICMP and
floods (permit), the second matches ARP and floods (permit), and the
last entry carries no action (deny) and is the final one pushed. -/
theorem c8_firewall_three_entries :
    firewallMessages.length = 3 ∧
    firewallMessages = [icmpFlowMod, arpFlowMod, dropFlowMod] ∧
    icmpFlowMod.match_.dl_type = some IPV4 ∧
    icmpFlowMod.match_.nw_proto = some ICMP_PROTO ∧
    icmpFlowMod.actions = [OfpAction.output OFPP_FLOOD] ∧
    arpFlowMod.match_.dl_type = some ARP_ETHERTYPE ∧
    arpFlowMod.actions = [OfpAction.output OFPP_FLOOD] ∧
    dropFlowMod.actions = [] ∧
    firewallMessages.getLast? = some dropFlowMod := by
  decide

/-- C9: a PacketIn handler only logs: it sends no flow-modification
message on any path, so the installed table is identical before and
after any sequence of unhandled packets. -/
theorem c9_packetin_no_mutation (parsed : Bool) (tbl : List OfpFlowMod)
    (pkts : List Bool) :
    (handlePacketIn parsed).sentMessages = [] ∧
    tableAfterPacketIns tbl pkts = tbl := by
  constructor
  · cases parsed <;> rfl
  · induction pkts generalizing tbl with
    | nil => rfl
    | cons p ps ih =>
      have hempty : (handlePacketIn p).sentMessages = [] := by cases p <;> rfl
      calc tableAfterPacketIns tbl (p :: ps)
          = tableAfterPacketIns (tbl ++ (handlePacketIn p).sentMessages) ps := rfl
        _ = tableAfterPacketIns tbl ps := by rw [hempty, List.append_nil]
        _ = tbl := ih tbl

/-- C10: no flow mod either controller sends carries an explicit
priority: every message of every install sequence keeps POX's protocol
default `OFP_DEFAULT_PRIORITY`, so all entries installed on a given
switch share one priority. -/
theorem c10_default_priority_everywhere :
    ((firewallMessages ++ s1_setup ++ s2_setup ++ s3_setup ++ cores21_setup ++
        dcs31_setup).all fun fm => fm.priority == OFP_DEFAULT_PRIORITY) = true := by
  decide
